import Mathlib

/-!
Shallow embedding of `model_manipulation_software/prediction_system.py`.

The repository is an orchestration wrapper: two classes (`Model`, a per-model
handle, and `PredictionSystem`, a per-deployment registry) that resolve a model
by name, delegate input preparation to `melloddy_tuner`, delegate tensor
computation to `sparsechem`, and return prediction matrices.

Embedding conventions:
- filesystem paths (`pathlib.Path`) are lists of segments (`FsPath`);
- the filesystem (`os.path.isfile`, `os.path.isdir`, `os.listdir`) is a record
  of pure functions (`FileSystem`);
- the external libraries (`melloddy_tuner`, `sparsechem`, `torch`) are a record
  of pure functions (`Extern`); matrices are modelled by their shape plus an
  uninterpreted payload, as no orchestration-level claim depends on numerics;
- every delegated library call is recorded in an event trace (`Event`), so
  ordering and parameterization of the delegated calls are provable facts;
- Python exceptions raised by the orchestration layer become the `PyError`
  sum type and fallible operations return `Except PyError`;
- object mutation (the lazily populated attributes `_conf`, `_model`,
  `_device` of `Model`) becomes explicit state passing: each operation
  returns the updated `Model`, and `PredictionSystem.predict` writes the
  updated handle back into the registry, mirroring the aliasing of the
  in-place mutation in Python.
-/

deriving instance DecidableEq for Except

/-- A filesystem path, as a list of path segments. -/
abbrev FsPath := List String

/-- `p / s` of `pathlib.Path`: append one segment. -/
def FsPath.join (p : FsPath) (s : String) : FsPath := p ++ [s]

/-- `str(path)`: render a path as a string. -/
def pathStr (p : FsPath) : String := String.intercalate "/" p

/-- The filesystem operations the orchestration layer consults. -/
structure FileSystem where
  isFile : FsPath → Bool
  isDir : FsPath → Bool
  listdir : FsPath → List String

/-- The `conf` namespace of `sparsechem.load_results(..., two_heads=True)`:
the fields the orchestration layer reads from `hyperparameters.json`. -/
structure Conf where
  class_output_size : Nat
  regr_output_size : Nat
  fold_inputs : Nat
  input_transform : String
deriving DecidableEq

/-- A sparse matrix, modelled by shape and an uninterpreted payload. -/
structure SparseMat where
  rows : Nat
  cols : Nat
  payload : Nat
deriving DecidableEq

/-- A dense prediction matrix, modelled by shape and an uninterpreted payload. -/
structure Mat where
  rows : Nat
  cols : Nat
  payload : Nat
deriving DecidableEq

/-- A loaded network: `sparsechem.SparseFFN(conf).to(device)` with the state
dict read by `torch.load(model_path, map_location=device)`. -/
structure LoadedNet where
  conf : Conf
  state_path : FsPath
  device : String
deriving DecidableEq

/-- The dataframe returned by `melloddy_tuner.utils.helper.read_input_file`;
only its number of samples is observable downstream. -/
structure DataFrame where
  nrows : Nat
deriving DecidableEq

/-- The argparse namespace handed to
`melloddy_tuner.tunercli.do_prepare_prediction_online`
(built by `PredictionSystem._build_data_preparation_args`). -/
structure PrepArgs where
  structure_file : String
  config_file : String
  key_file : String
  run_name : String
  number_cpu : Nat
  non_interactive : Bool
  ref_hash : Option String
deriving DecidableEq

/-- `sparsechem.ClassRegrSparseDataset(x, y_class, y_regr)`. -/
structure Dataset where
  x : SparseMat
  y_class : SparseMat
  y_regr : SparseMat
deriving DecidableEq

/-- `torch.utils.data.DataLoader(dataset, batch_size, num_workers, pin_memory, ...)`. -/
structure Loader where
  dataset : Dataset
  batch_size : Nat
  num_workers : Nat
  pin_memory : Bool
deriving DecidableEq

/-- One delegated library call, as recorded in the trace. -/
inductive Event where
  /-- `sparsechem.load_results(conf_path, two_heads=True)` -/
  | loadResults (path : FsPath)
  /-- `melloddy_tuner.utils.helper.read_input_file(file)` -/
  | readInputFile (file : String)
  /-- `melloddy_tuner.tunercli.do_prepare_prediction_online(args, df)` -/
  | doPreparePrediction (args : PrepArgs)
  /-- `sparsechem.fold_transform_inputs(data, folding_size, transform)` -/
  | foldTransformInputs (folding_size : Nat) (transform : String)
  /-- `sparsechem.load_check_sparse(None, shape=(rows, cols))` -/
  | loadCheckSparse (rows cols : Nat)
  /-- `SparseFFN(conf).to(device)` + `torch.load` + `load_state_dict` -/
  | torchLoad (path : FsPath) (device : String)
  /-- `sparsechem.predict(net, loader, dev, ...)` -/
  | scPredict (device : String)
deriving DecidableEq

/-- The external libraries, as uninterpreted pure functions. -/
structure Extern where
  /-- `sparsechem.load_results(path, two_heads=True)["conf"]` -/
  load_results_conf : FsPath → Conf
  /-- `melloddy_tuner.utils.helper.read_input_file` -/
  read_input_file : String → DataFrame
  /-- `melloddy_tuner.tunercli.do_prepare_prediction_online` -/
  do_prepare_prediction_online : PrepArgs → DataFrame → SparseMat
  /-- `sparsechem.fold_transform_inputs` -/
  fold_transform_inputs : SparseMat → Nat → String → SparseMat
  /-- `sparsechem.load_check_sparse(filename=None, shape=(rows, cols))` -/
  load_check_sparse : Nat → Nat → SparseMat
  /-- `sparsechem.predict(net, loader, dev=net device, dropout=0, ...)` -/
  sc_predict : LoadedNet → Loader → Mat × Mat

/-- The Python exceptions the orchestration layer itself can raise. -/
inductive PyError where
  /-- `NotADirectoryError(f"... is not a directory")` on the model folder -/
  | notADirectoryError (path : FsPath)
  /-- `FileNotFoundError(path)` on a missing model file -/
  | fileNotFoundError (path : FsPath)
  /-- `ModelUnknownError("Requested model does not exist")` -/
  | modelUnknownError (msg : String)
  /-- Python attribute lookup failure on an unset lazy attribute -/
  | attributeError (name : String)
deriving DecidableEq

/-- The `Model` class: path fields set by `__init__`, plus the lazily
populated attributes `_conf`, `_model` and `_device` as `Option` fields. -/
structure Model where
  path : FsPath
  conf_path : FsPath
  model_path : FsPath
  conf_cache : Option Conf
  net_cache : Option LoadedNet
  device_cache : Option String
deriving DecidableEq

/-- `Model.__init__(path)`: derive the two file paths and check both exist,
raising `FileNotFoundError` on the first missing one. -/
def Model.init (fs : FileSystem) (path : FsPath) : Except PyError Model :=
  let conf_path := path.join "hyperparameters.json"
  let model_path := path.join "model.pth"
  if fs.isFile conf_path = false then .error (.fileNotFoundError conf_path)
  else if fs.isFile model_path = false then .error (.fileNotFoundError model_path)
  else .ok { path := path, conf_path := conf_path, model_path := model_path,
             conf_cache := none, net_cache := none, device_cache := none }

/-- The `Model.conf` property: on the first access run
`sparsechem.load_results(conf_path, two_heads=True)["conf"]` and store it in
`_conf`; afterwards return the stored namespace.  (The guard
`not hasattr(self, "_conf") or not self._conf` reduces to "not yet set",
since a `SimpleNamespace` instance is always truthy.)  Returns the updated
model, the configuration, and the trace of delegated calls. -/
def Model.conf (ex : Extern) (m : Model) : Model × Conf × List Event :=
  match m.conf_cache with
  | some c => (m, c, [])
  | none =>
      let c := ex.load_results_conf m.conf_path
      ({ m with conf_cache := some c }, c, [Event.loadResults m.conf_path])

/-- The `Model.class_output_size` property (reads `conf`). -/
def Model.class_output_size (ex : Extern) (m : Model) : Model × Nat × List Event :=
  let r := Model.conf ex m
  (r.1, r.2.1.class_output_size, r.2.2)

/-- The `Model.regr_output_size` property (reads `conf`). -/
def Model.regr_output_size (ex : Extern) (m : Model) : Model × Nat × List Event :=
  let r := Model.conf ex m
  (r.1, r.2.1.regr_output_size, r.2.2)

/-- The `Model.fold_inputs` property (reads `conf`). -/
def Model.fold_inputs (ex : Extern) (m : Model) : Model × Nat × List Event :=
  let r := Model.conf ex m
  (r.1, r.2.1.fold_inputs, r.2.2)

/-- The `Model.input_transform` property (reads `conf`). -/
def Model.input_transform (ex : Extern) (m : Model) : Model × String × List Event :=
  let r := Model.conf ex m
  (r.1, r.2.1.input_transform, r.2.2)

/-- `Model.load(device)`: if `_model` is not yet set, record the device in
`_device`, build `SparseFFN(self.conf).to(device)` (which reads the `conf`
property) and load the state dict from `model_path`; otherwise do nothing. -/
def Model.load (ex : Extern) (m : Model) (device : String) : Model × List Event :=
  match m.net_cache with
  | some _ => (m, [])
  | none =>
      let r := Model.conf ex m
      let net : LoadedNet := { conf := r.2.1, state_path := r.1.model_path, device := device }
      ({ r.1 with net_cache := some net, device_cache := some device },
       r.2.2 ++ [Event.torchLoad r.1.model_path device])

/-- `Model.predict(data)`: `sparsechem.predict(net=self._model, loader=data,
dev=self._device, dropout=0, progress=False, y_cat_columns=None)`.  Reading
an unset `_model` or `_device` attribute would be an `AttributeError`. -/
def Model.predict (ex : Extern) (m : Model) (data : Loader) :
    Except PyError ((Mat × Mat) × List Event) :=
  match m.net_cache, m.device_cache with
  | some net, some dev => .ok (ex.sc_predict net data, [Event.scPredict dev])
  | none, _ => .error (.attributeError "_model")
  | some _, none => .error (.attributeError "_device")

/-- The effective configuration of a model: the cached one if present,
otherwise the one `load_results` would produce from `hyperparameters.json`. -/
def Model.effectiveConf (ex : Extern) (m : Model) : Conf :=
  m.conf_cache.getD (ex.load_results_conf m.conf_path)

/-- First-match lookup in an association list: Python `dict` access, given
that keys occur at most once (`dictInsert` preserves that). -/
def assocFind {α : Type} : List (String × α) → String → Option α
  | [], _ => none
  | (k, v) :: rest, key => if k = key then some v else assocFind rest key

/-- Python `dict` assignment `d[k] = v`: replace the value in place if the
key is present, otherwise append the new binding at the end. -/
def dictInsert {α : Type} : List (String × α) → String → α → List (String × α)
  | [], k, v => [(k, v)]
  | (k', v') :: rest, k, v =>
      if k' = k then (k, v) :: rest else (k', v') :: dictInsert rest k v

/-- The `for dirname in os.listdir(model_folder)` loop of
`PredictionSystem.__init__`: build each `Model` and store it under its
directory name, propagating the first `FileNotFoundError`. -/
def initModels (fs : FileSystem) (model_folder : FsPath) :
    List String → List (String × Model) → Except PyError (List (String × Model))
  | [], acc => .ok acc
  | dirname :: rest, acc =>
      match Model.init fs (model_folder.join dirname) with
      | .error e => .error e
      | .ok m => initModels fs model_folder rest (dictInsert acc dirname m)

/-- The `PredictionSystem` class state: `_device`, `_tuner_encryption_key`,
`_tuner_configuration_parameters` and the `_models` registry. -/
structure PredictionSystem where
  device : String
  tuner_encryption_key : FsPath
  tuner_configuration_parameters : FsPath
  models : List (String × Model)
deriving DecidableEq

/-- `PREPARATION_RUN_NAME = "mms"`. -/
def PREPARATION_RUN_NAME : String := "mms"

/-- `PredictionSystem.__init__(model_folder, encryption_key,
preparation_parameters, device)`: store the configuration, require
`model_folder` to be a directory, then register one `Model` per entry. -/
def PredictionSystem.init (fs : FileSystem) (model_folder : FsPath)
    (encryption_key : FsPath) (preparation_parameters : FsPath) (device : String) :
    Except PyError PredictionSystem :=
  if fs.isDir model_folder = false then .error (.notADirectoryError model_folder)
  else
    match initModels fs model_folder (fs.listdir model_folder) [] with
    | .error e => .error e
    | .ok models =>
        .ok { device := device, tuner_encryption_key := encryption_key,
              tuner_configuration_parameters := preparation_parameters,
              models := models }

/-- `PredictionSystem._build_data_preparation_args(data_file)`: the namespace
for `do_prepare_prediction_online`, with the fixed run name `"mms"`, one CPU,
non-interactive mode and no reference hash. -/
def PredictionSystem.build_data_preparation_args (ps : PredictionSystem)
    (data_file : FsPath) : PrepArgs :=
  { structure_file := pathStr data_file,
    config_file := pathStr ps.tuner_configuration_parameters,
    key_file := pathStr ps.tuner_encryption_key,
    run_name := PREPARATION_RUN_NAME,
    number_cpu := 1,
    non_interactive := true,
    ref_hash := none }

/-- `PredictionSystem._get_model(model_name)`: registry lookup, turning a
`KeyError` into `ModelUnknownError`. -/
def PredictionSystem.get_model (ps : PredictionSystem) (model_name : String) :
    Except PyError Model :=
  match assocFind ps.models model_name with
  | some m => .ok m
  | none => .error (.modelUnknownError "Requested model does not exist")

/-- The body of `PredictionSystem.predict` after the model has been resolved,
in the evaluation order of the Python source: read the input file, prepare it
with the tuner, fold/transform (reading `fold_inputs` then `input_transform`,
each an access to the `conf` property), build the two empty label matrices
(reading `class_output_size` and `regr_output_size`), build the dataset and
loader, load the model on the system device, and run the prediction.  The
updated model handle is written back into the registry, mirroring the
in-place mutation of the shared `Model` object in Python.  Returns the
outcome together with the full trace of delegated calls. -/
def PredictionSystem.predictKnown (ex : Extern) (ps : PredictionSystem)
    (model_name : String) (model : Model) (smiles : FsPath) :
    Except PyError (PredictionSystem × Mat × Mat) × List Event :=
  let s := pathStr smiles
  let df := ex.read_input_file s
  let args := PredictionSystem.build_data_preparation_args ps smiles
  let data := ex.do_prepare_prediction_online args df
  let r1 := Model.fold_inputs ex model
  let r2 := Model.input_transform ex r1.1
  let data2 := ex.fold_transform_inputs data r1.2.1 r2.2.1
  let r3 := Model.class_output_size ex r2.1
  let y_class := ex.load_check_sparse data2.rows r3.2.1
  let r4 := Model.regr_output_size ex r3.1
  let y_regr := ex.load_check_sparse data2.rows r4.2.1
  let dataset_te : Dataset := { x := data2, y_class := y_class, y_regr := y_regr }
  let loader : Loader :=
    { dataset := dataset_te, batch_size := 4000, num_workers := 4, pin_memory := true }
  let r5 := Model.load ex r4.1 ps.device
  let ps1 : PredictionSystem := { ps with models := dictInsert ps.models model_name r5.1 }
  let evs := Event.readInputFile s
      :: Event.doPreparePrediction args
      :: (r1.2.2 ++ r2.2.2
          ++ Event.foldTransformInputs r1.2.1 r2.2.1
          :: (r3.2.2 ++ Event.loadCheckSparse data2.rows r3.2.1
          :: (r4.2.2 ++ Event.loadCheckSparse data2.rows r4.2.1
          :: r5.2)))
  match Model.predict ex r5.1 loader with
  | .ok pr => (.ok (ps1, pr.1.1, pr.1.2), evs ++ pr.2)
  | .error e => (.error e, evs)

/-- `PredictionSystem.predict(model_name, smiles)`: resolve the model
(raising `ModelUnknownError` if it is not registered), then run the
preprocessing pipeline and the prediction. -/
def PredictionSystem.predict (ex : Extern) (ps : PredictionSystem)
    (model_name : String) (smiles : FsPath) :
    Except PyError (PredictionSystem × Mat × Mat) × List Event :=
  match PredictionSystem.get_model ps model_name with
  | .error e => (.error e, [])
  | .ok model => PredictionSystem.predictKnown ex ps model_name model smiles

/-- Event discriminator: is this a tuner preparation call? -/
def Event.isPrep : Event → Bool
  | .doPreparePrediction _ => true
  | _ => false

/-- Event discriminator: is this a fold/transform call? -/
def Event.isFold : Event → Bool
  | .foldTransformInputs _ _ => true
  | _ => false

/-- Event discriminator: is this an inference call? -/
def Event.isSc : Event → Bool
  | .scPredict _ => true
  | _ => false

/-- Event discriminator: is this an input-file read? -/
def Event.isRead : Event → Bool
  | .readInputFile _ => true
  | _ => false

/-- The state evolution the lazy attributes allow: the path fields are
unchanged, and each of `_conf`, `_model`, `_device` keeps any value it
already had (it may only be newly filled in). -/
def Model.evolves (m m' : Model) : Prop :=
  m'.path = m.path ∧ m'.conf_path = m.conf_path ∧ m'.model_path = m.model_path ∧
  (∀ c, m.conf_cache = some c → m'.conf_cache = some c) ∧
  (∀ n, m.net_cache = some n → m'.net_cache = some n) ∧
  (∀ d, m.device_cache = some d → m'.device_cache = some d)

/-- The reachability invariant of the lazy attributes: `_model` and `_device`
are always set together (both are assigned only inside `Model.load`). -/
def Model.wf (m : Model) : Prop :=
  m.net_cache.isSome = m.device_cache.isSome

instance (m : Model) : Decidable (Model.wf m) := by
  unfold Model.wf
  infer_instance

/-- The reachability invariant lifted to a registry: every registered model
has its `_model` and `_device` attributes set together. -/
def PredictionSystem.wfModels (ps : PredictionSystem) : Prop :=
  ∀ pr ∈ ps.models, Model.wf pr.2

instance (ps : PredictionSystem) : Decidable (PredictionSystem.wfModels ps) := by
  unfold PredictionSystem.wfModels
  infer_instance

/-- The folded/transformed input matrix a `predict` call hands to the sparse
dataset: tuner preparation followed by `fold_transform_inputs` with the
configured `fold_inputs` and `input_transform` of the resolved model. -/
def predictX (ex : Extern) (ps : PredictionSystem) (m : Model) (smiles : FsPath) : SparseMat :=
  ex.fold_transform_inputs
    (ex.do_prepare_prediction_online (PredictionSystem.build_data_preparation_args ps smiles)
      (ex.read_input_file (pathStr smiles)))
    (Model.effectiveConf ex m).fold_inputs (Model.effectiveConf ex m).input_transform

/-- The loader a `predict` call hands to `sparsechem.predict`. -/
def predictLoader (ex : Extern) (ps : PredictionSystem) (m : Model) (smiles : FsPath) : Loader :=
  { dataset :=
      { x := predictX ex ps m smiles,
        y_class := ex.load_check_sparse (predictX ex ps m smiles).rows
          (Model.effectiveConf ex m).class_output_size,
        y_regr := ex.load_check_sparse (predictX ex ps m smiles).rows
          (Model.effectiveConf ex m).regr_output_size },
    batch_size := 4000, num_workers := 4, pin_memory := true }

/-! ### Concrete instances used to witness the theorems on sample inputs -/

/-- A sample hyperparameters configuration. -/
def conf0 : Conf :=
  { class_output_size := 3, regr_output_size := 2, fold_inputs := 32000,
    input_transform := "binarize" }

/-- A concrete interpretation of the external libraries, satisfying their
documented shape contracts. -/
def ex0 : Extern :=
  { load_results_conf := fun _ => conf0,
    read_input_file := fun _ => { nrows := 5 },
    do_prepare_prediction_online := fun _ df =>
      { rows := df.nrows, cols := 65536, payload := 0 },
    fold_transform_inputs := fun x f _ => { rows := x.rows, cols := f, payload := x.payload },
    load_check_sparse := fun r c => { rows := r, cols := c, payload := 0 },
    sc_predict := fun _ ld =>
      ({ rows := ld.dataset.x.rows, cols := ld.dataset.y_class.cols, payload := 1 },
       { rows := ld.dataset.x.rows, cols := ld.dataset.y_regr.cols, payload := 2 }) }

/-- A freshly constructed model handle. -/
def m0 : Model :=
  { path := ["models", "m1"],
    conf_path := ["models", "m1", "hyperparameters.json"],
    model_path := ["models", "m1", "model.pth"],
    conf_cache := none, net_cache := none, device_cache := none }

/-- A concrete prediction system with the single model `"m1"`. -/
def ps0 : PredictionSystem :=
  { device := "cpu",
    tuner_encryption_key := ["inputs", "config", "example_key.json"],
    tuner_configuration_parameters := ["inputs", "config", "example_parameters.json"],
    models := [("m1", m0)] }

/-- A filesystem with one complete model directory `models/m1`. -/
def fs0 : FileSystem :=
  { isFile := fun _ => true,
    isDir := fun _ => true,
    listdir := fun p => if p = ["models"] then ["m1"] else [] }

/-- A filesystem in which `["models"]` is not a directory. -/
def fs_nodir : FileSystem :=
  { isFile := fun _ => true, isDir := fun _ => false, listdir := fun _ => [] }

/-- A filesystem whose model directory lists an entry `bad` that lacks
`hyperparameters.json`. -/
def fs_badmodel : FileSystem :=
  { isFile := fun p => if p = ["models", "bad", "hyperparameters.json"] then false else true,
    isDir := fun _ => true,
    listdir := fun p => if p = ["models"] then ["bad"] else [] }

/-- A concrete loader for exercising `Model.predict` directly. -/
def loader0 : Loader :=
  { dataset :=
      { x := { rows := 5, cols := 32000, payload := 0 },
        y_class := { rows := 5, cols := 3, payload := 0 },
        y_regr := { rows := 5, cols := 2, payload := 0 } },
    batch_size := 4000, num_workers := 4, pin_memory := true }

/-- The model `m0` after a `predict` run: configuration cached, network
loaded on `"cpu"`. -/
def m0loaded : Model :=
  { path := ["models", "m1"],
    conf_path := ["models", "m1", "hyperparameters.json"],
    model_path := ["models", "m1", "model.pth"],
    conf_cache := some conf0,
    net_cache := some
      { conf := conf0, state_path := ["models", "m1", "model.pth"], device := "cpu" },
    device_cache := some "cpu" }

/-- The prediction system `ps0` after a `predict "m1"` run. -/
def ps0after : PredictionSystem :=
  { device := "cpu",
    tuner_encryption_key := ["inputs", "config", "example_key.json"],
    tuner_configuration_parameters := ["inputs", "config", "example_parameters.json"],
    models := [("m1", m0loaded)] }

/-- The preparation namespace a `predict` run on `ps0` builds for the
structure file `in.csv`. -/
def args0 : PrepArgs :=
  { structure_file := "in.csv",
    config_file := "inputs/config/example_parameters.json",
    key_file := "inputs/config/example_key.json",
    run_name := "mms", number_cpu := 1, non_interactive := true, ref_hash := none }

/-- The trace of delegated calls of `predict ex0 ps0 "m1" ["in.csv"]`. -/
def trace0 : List Event :=
  [Event.readInputFile "in.csv",
   Event.doPreparePrediction args0,
   Event.loadResults ["models", "m1", "hyperparameters.json"],
   Event.foldTransformInputs 32000 "binarize",
   Event.loadCheckSparse 5 3,
   Event.loadCheckSparse 5 2,
   Event.torchLoad ["models", "m1", "model.pth"] "cpu",
   Event.scPredict "cpu"]

/-! ### Structural lemmas about the lazy `Model` attributes -/

theorem conf_of_some (ex : Extern) (m : Model) (c : Conf)
    (h : m.conf_cache = some c) : Model.conf ex m = (m, c, []) := by
  unfold Model.conf
  rw [h]

theorem conf_of_none (ex : Extern) (m : Model) (h : m.conf_cache = none) :
    Model.conf ex m =
      ({ m with conf_cache := some (ex.load_results_conf m.conf_path) },
       ex.load_results_conf m.conf_path, [Event.loadResults m.conf_path]) := by
  unfold Model.conf
  rw [h]

theorem conf_val (ex : Extern) (m : Model) :
    (Model.conf ex m).2.1 = Model.effectiveConf ex m := by
  obtain ⟨p, cp, mp, cc, nc, dc⟩ := m
  cases cc <;> simp [Model.conf, Model.effectiveConf]

theorem conf_fst_cache (ex : Extern) (m : Model) :
    ((Model.conf ex m).1).conf_cache = some (Model.effectiveConf ex m) := by
  obtain ⟨p, cp, mp, cc, nc, dc⟩ := m
  cases cc <;> simp [Model.conf, Model.effectiveConf]

theorem conf_fst_fields (ex : Extern) (m : Model) :
    ((Model.conf ex m).1).path = m.path ∧
    ((Model.conf ex m).1).conf_path = m.conf_path ∧
    ((Model.conf ex m).1).model_path = m.model_path ∧
    ((Model.conf ex m).1).net_cache = m.net_cache ∧
    ((Model.conf ex m).1).device_cache = m.device_cache := by
  obtain ⟨p, cp, mp, cc, nc, dc⟩ := m
  cases cc <;> simp [Model.conf]

theorem effectiveConf_conf_fst (ex : Extern) (m : Model) :
    Model.effectiveConf ex ((Model.conf ex m).1) = Model.effectiveConf ex m := by
  obtain ⟨p, cp, mp, cc, nc, dc⟩ := m
  cases cc <;> simp [Model.conf, Model.effectiveConf]

theorem conf_then_conf (ex : Extern) (m : Model) :
    Model.conf ex ((Model.conf ex m).1) =
      ((Model.conf ex m).1, (Model.conf ex m).2.1, []) := by
  have h := conf_fst_cache ex m
  rw [conf_of_some ex ((Model.conf ex m).1) (Model.effectiveConf ex m) h, conf_val]

theorem conf_evolves (ex : Extern) (m : Model) :
    Model.evolves m ((Model.conf ex m).1) := by
  obtain ⟨p, cp, mp, cc, nc, dc⟩ := m
  cases cc <;> simp [Model.conf, Model.evolves]

theorem conf_events_silent (ex : Extern) (m : Model) :
    ∀ e ∈ (Model.conf ex m).2.2,
      e.isPrep = false ∧ e.isFold = false ∧ e.isSc = false ∧ e.isRead = false := by
  obtain ⟨p, cp, mp, cc, nc, dc⟩ := m
  cases cc <;>
    simp [Model.conf, Event.isPrep, Event.isFold, Event.isSc, Event.isRead]

theorem load_of_loaded (ex : Extern) (m : Model) (n : LoadedNet) (d : String)
    (h : m.net_cache = some n) : Model.load ex m d = (m, []) := by
  unfold Model.load
  rw [h]

theorem load_of_fresh (ex : Extern) (m : Model) (d : String)
    (h : m.net_cache = none) :
    Model.load ex m d =
      ({ (Model.conf ex m).1 with
          net_cache := some
            { conf := (Model.conf ex m).2.1,
              state_path := ((Model.conf ex m).1).model_path, device := d },
          device_cache := some d },
       (Model.conf ex m).2.2 ++
         [Event.torchLoad ((Model.conf ex m).1).model_path d]) := by
  unfold Model.load
  rw [h]

theorem load_fst_loaded (ex : Extern) (m : Model) (d : String)
    (hwf : Model.wf m) :
    ∃ net dv, ((Model.load ex m d).1).net_cache = some net ∧
      ((Model.load ex m d).1).device_cache = some dv ∧
      (m.net_cache = none → dv = d) ∧
      (m.device_cache = some dv ∨ dv = d) := by
  obtain ⟨p, cp, mp, cc, nc, dc⟩ := m
  cases nc with
  | none =>
      cases cc with
      | none =>
          refine ⟨⟨ex.load_results_conf cp, mp, d⟩, d, ?_, ?_, fun _ => rfl, Or.inr rfl⟩ <;>
            simp [Model.load, Model.conf]
      | some c =>
          refine ⟨⟨c, mp, d⟩, d, ?_, ?_, fun _ => rfl, Or.inr rfl⟩ <;>
            simp [Model.load, Model.conf]
  | some net =>
      cases dc with
      | none => simp [Model.wf] at hwf
      | some dv =>
          exact ⟨net, dv, by simp [Model.load], by simp [Model.load],
            by simp, Or.inl (by simp [Model.load])⟩

theorem load_evolves (ex : Extern) (m : Model) (d : String)
    (hwf : Model.wf m) :
    Model.evolves m ((Model.load ex m d).1) := by
  obtain ⟨p, cp, mp, cc, nc, dc⟩ := m
  cases nc with
  | none =>
      cases dc with
      | none => cases cc <;> simp [Model.load, Model.conf, Model.evolves]
      | some dv => simp [Model.wf] at hwf
  | some net => simp [Model.load, Model.evolves]

theorem conf_preserves_wf (ex : Extern) (m : Model) (hwf : Model.wf m) :
    Model.wf ((Model.conf ex m).1) := by
  obtain ⟨p, cp, mp, cc, nc, dc⟩ := m
  cases cc <;> simpa [Model.conf, Model.wf] using hwf

theorem load_preserves_wf (ex : Extern) (m : Model) (d : String) (hwf : Model.wf m) :
    Model.wf ((Model.load ex m d).1) := by
  obtain ⟨p, cp, mp, cc, nc, dc⟩ := m
  cases nc with
  | none => cases cc <;> simp [Model.load, Model.conf, Model.wf]
  | some net => simpa [Model.load, Model.wf] using hwf

theorem load_events_silent (ex : Extern) (m : Model) (d : String) :
    ∀ e ∈ (Model.load ex m d).2,
      e.isPrep = false ∧ e.isFold = false ∧ e.isSc = false ∧ e.isRead = false := by
  obtain ⟨p, cp, mp, cc, nc, dc⟩ := m
  cases nc with
  | none =>
      cases cc <;>
        simp [Model.load, Model.conf, Event.isPrep, Event.isFold, Event.isSc, Event.isRead]
  | some net => simp [Model.load]

theorem load_effectiveConf (ex : Extern) (m : Model) (d : String) :
    Model.effectiveConf ex ((Model.load ex m d).1) = Model.effectiveConf ex m := by
  obtain ⟨p, cp, mp, cc, nc, dc⟩ := m
  cases nc with
  | none => cases cc <;> simp [Model.load, Model.conf, Model.effectiveConf]
  | some net => simp [Model.load]

theorem load_then_load (ex : Extern) (m : Model) (d d' : String) :
    Model.load ex ((Model.load ex m d).1) d' = ((Model.load ex m d).1, []) := by
  obtain ⟨p, cp, mp, cc, nc, dc⟩ := m
  cases nc with
  | none => cases cc <;> simp [Model.load, Model.conf]
  | some net => simp [Model.load]

theorem predict_of_loaded (ex : Extern) (m : Model) (data : Loader)
    (net : LoadedNet) (dv : String)
    (h1 : m.net_cache = some net) (h2 : m.device_cache = some dv) :
    Model.predict ex m data = .ok (ex.sc_predict net data, [Event.scPredict dv]) := by
  unfold Model.predict
  rw [h1, h2]

theorem evolves_trans (m1 m2 m3 : Model)
    (h1 : Model.evolves m1 m2) (h2 : Model.evolves m2 m3) : Model.evolves m1 m3 := by
  obtain ⟨a1, b1, c1, d1, e1, f1⟩ := h1
  obtain ⟨a2, b2, c2, d2, e2, f2⟩ := h2
  exact ⟨a2.trans a1, b2.trans b1, c2.trans c1,
    fun c hc => d2 c (d1 c hc), fun n hn => e2 n (e1 n hn), fun d hd => f2 d (f1 d hd)⟩

theorem predictKnown_spec (ex : Extern) (ps : PredictionSystem) (name : String)
    (m : Model) (smiles : FsPath) (hwf : Model.wf m) :
    ∃ m5 net dv t1 t2,
      PredictionSystem.predictKnown ex ps name m smiles =
        (.ok ({ ps with models := dictInsert ps.models name m5 },
              (ex.sc_predict net (predictLoader ex ps m smiles)).1,
              (ex.sc_predict net (predictLoader ex ps m smiles)).2),
         Event.readInputFile (pathStr smiles)
           :: Event.doPreparePrediction (PredictionSystem.build_data_preparation_args ps smiles)
           :: (t1 ++ Event.foldTransformInputs (Model.effectiveConf ex m).fold_inputs
                 (Model.effectiveConf ex m).input_transform
           :: (t2 ++ [Event.scPredict dv]))) ∧
      m5.net_cache = some net ∧ m5.device_cache = some dv ∧
      Model.evolves m m5 ∧ Model.wf m5 ∧
      (m.net_cache = none → dv = ps.device) ∧
      (∀ e ∈ t1, e.isPrep = false ∧ e.isFold = false ∧ e.isSc = false ∧ e.isRead = false) ∧
      (∀ e ∈ t2, e.isPrep = false ∧ e.isFold = false ∧ e.isSc = false ∧ e.isRead = false) := by
  obtain ⟨p, cp, mp, cc, nc, dc⟩ := m
  cases nc with
  | none =>
      cases dc with
      | some dv0 => simp [Model.wf] at hwf
      | none =>
          cases cc with
          | none =>
              refine ⟨⟨p, cp, mp, some (ex.load_results_conf cp),
                       some ⟨ex.load_results_conf cp, mp, ps.device⟩, some ps.device⟩,
                      ⟨ex.load_results_conf cp, mp, ps.device⟩, ps.device,
                      [Event.loadResults cp],
                      [Event.loadCheckSparse (predictX ex ps ⟨p, cp, mp, none, none, none⟩ smiles).rows
                         (ex.load_results_conf cp).class_output_size,
                       Event.loadCheckSparse (predictX ex ps ⟨p, cp, mp, none, none, none⟩ smiles).rows
                         (ex.load_results_conf cp).regr_output_size,
                       Event.torchLoad mp ps.device],
                      ?_, rfl, rfl, ?_, ?_, ?_, ?_, ?_⟩
              · simp [PredictionSystem.predictKnown, Model.fold_inputs, Model.input_transform,
                      Model.class_output_size, Model.regr_output_size, Model.conf, Model.load,
                      Model.predict, predictX, predictLoader, Model.effectiveConf]
              · simp [Model.evolves]
              · simp [Model.wf]
              · intro
                rfl
              · simp [Event.isPrep, Event.isFold, Event.isSc, Event.isRead]
              · simp [Event.isPrep, Event.isFold, Event.isSc, Event.isRead]
          | some c =>
              refine ⟨⟨p, cp, mp, some c, some ⟨c, mp, ps.device⟩, some ps.device⟩,
                      ⟨c, mp, ps.device⟩, ps.device,
                      [],
                      [Event.loadCheckSparse (predictX ex ps ⟨p, cp, mp, some c, none, none⟩ smiles).rows
                         c.class_output_size,
                       Event.loadCheckSparse (predictX ex ps ⟨p, cp, mp, some c, none, none⟩ smiles).rows
                         c.regr_output_size,
                       Event.torchLoad mp ps.device],
                      ?_, rfl, rfl, ?_, ?_, ?_, ?_, ?_⟩
              · simp [PredictionSystem.predictKnown, Model.fold_inputs, Model.input_transform,
                      Model.class_output_size, Model.regr_output_size, Model.conf, Model.load,
                      Model.predict, predictX, predictLoader, Model.effectiveConf]
              · simp [Model.evolves]
              · simp [Model.wf]
              · intro
                rfl
              · simp
              · simp [Event.isPrep, Event.isFold, Event.isSc, Event.isRead]
  | some net0 =>
      cases dc with
      | none => simp [Model.wf] at hwf
      | some dv0 =>
          cases cc with
          | none =>
              refine ⟨⟨p, cp, mp, some (ex.load_results_conf cp), some net0, some dv0⟩,
                      net0, dv0,
                      [Event.loadResults cp],
                      [Event.loadCheckSparse (predictX ex ps ⟨p, cp, mp, none, some net0, some dv0⟩ smiles).rows
                         (ex.load_results_conf cp).class_output_size,
                       Event.loadCheckSparse (predictX ex ps ⟨p, cp, mp, none, some net0, some dv0⟩ smiles).rows
                         (ex.load_results_conf cp).regr_output_size],
                      ?_, rfl, rfl, ?_, ?_, ?_, ?_, ?_⟩
              · simp [PredictionSystem.predictKnown, Model.fold_inputs, Model.input_transform,
                      Model.class_output_size, Model.regr_output_size, Model.conf, Model.load,
                      Model.predict, predictX, predictLoader, Model.effectiveConf]
              · simp [Model.evolves]
              · simp [Model.wf]
              · intro h
                exact absurd h (by simp)
              · simp [Event.isPrep, Event.isFold, Event.isSc, Event.isRead]
              · simp [Event.isPrep, Event.isFold, Event.isSc, Event.isRead]
          | some c =>
              refine ⟨⟨p, cp, mp, some c, some net0, some dv0⟩,
                      net0, dv0,
                      [],
                      [Event.loadCheckSparse (predictX ex ps ⟨p, cp, mp, some c, some net0, some dv0⟩ smiles).rows
                         c.class_output_size,
                       Event.loadCheckSparse (predictX ex ps ⟨p, cp, mp, some c, some net0, some dv0⟩ smiles).rows
                         c.regr_output_size],
                      ?_, rfl, rfl, ?_, ?_, ?_, ?_, ?_⟩
              · simp [PredictionSystem.predictKnown, Model.fold_inputs, Model.input_transform,
                      Model.class_output_size, Model.regr_output_size, Model.conf, Model.load,
                      Model.predict, predictX, predictLoader, Model.effectiveConf]
              · simp [Model.evolves]
              · simp [Model.wf]
              · intro h
                exact absurd h (by simp)
              · simp
              · simp [Event.isPrep, Event.isFold, Event.isSc, Event.isRead]

/-! ### Registry lemmas: `assocFind`, `dictInsert`, `initModels` -/

theorem filter_of_all_false {α : Type} (p : α → Bool) (l : List α)
    (h : ∀ e ∈ l, p e = false) : l.filter p = [] := by
  induction l with
  | nil => rfl
  | cons a l ih =>
      have ha := h a (by simp)
      have ih2 := ih fun e he => h e (by simp [he])
      simp [List.filter, ha, ih2]

theorem assocFind_dictInsert_self {α : Type} (d : List (String × α)) (k : String) (v : α) :
    assocFind (dictInsert d k v) k = some v := by
  induction d with
  | nil => simp [dictInsert, assocFind]
  | cons hd tl ih =>
      obtain ⟨k', v'⟩ := hd
      by_cases hk : k' = k
      · simp [dictInsert, hk, assocFind]
      · simp [dictInsert, hk, assocFind, ih]

theorem assocFind_dictInsert_ne {α : Type} (d : List (String × α)) (k n : String) (v : α)
    (hn : n ≠ k) : assocFind (dictInsert d k v) n = assocFind d n := by
  have hkn : k ≠ n := fun h => hn h.symm
  induction d with
  | nil => simp [dictInsert, assocFind, hkn]
  | cons hd tl ih =>
      obtain ⟨k', v'⟩ := hd
      by_cases hk : k' = k
      · subst hk
        simp [dictInsert, assocFind, hkn]
      · simp [dictInsert, hk, assocFind, ih]

theorem Model_init_ok (fs : FileSystem) (path : FsPath) (m : Model)
    (h : Model.init fs path = .ok m) :
    fs.isFile (path.join "hyperparameters.json") = true ∧
    fs.isFile (path.join "model.pth") = true ∧
    m = { path := path, conf_path := path.join "hyperparameters.json",
          model_path := path.join "model.pth",
          conf_cache := none, net_cache := none, device_cache := none } := by
  unfold Model.init at h
  by_cases h1 : fs.isFile (path.join "hyperparameters.json") = false
  · simp [h1] at h
  · by_cases h2 : fs.isFile (path.join "model.pth") = false
    · simp [h1, h2] at h
    · simp [h1, h2] at h
      exact ⟨by simpa using h1, by simpa using h2, h.symm⟩

theorem Model_init_error_shape (fs : FileSystem) (path : FsPath) :
    (∃ m, Model.init fs path = .ok m) ∨
    (∃ pth, Model.init fs path = .error (.fileNotFoundError pth)) := by
  unfold Model.init
  by_cases h1 : fs.isFile (path.join "hyperparameters.json") = false
  · exact Or.inr ⟨path.join "hyperparameters.json", by simp [h1]⟩
  · by_cases h2 : fs.isFile (path.join "model.pth") = false
    · exact Or.inr ⟨path.join "model.pth", by simp [h1, h2]⟩
    · exact Or.inl ⟨⟨path, path.join "hyperparameters.json", path.join "model.pth",
        none, none, none⟩, by simp [h1, h2]⟩

theorem Model_init_bad (fs : FileSystem) (path : FsPath)
    (h : fs.isFile (path.join "hyperparameters.json") = false ∨
         fs.isFile (path.join "model.pth") = false) :
    ∃ pth, Model.init fs path = .error (.fileNotFoundError pth) := by
  unfold Model.init
  by_cases h1 : fs.isFile (path.join "hyperparameters.json") = false
  · exact ⟨path.join "hyperparameters.json", by simp [h1]⟩
  · have h2 : fs.isFile (path.join "model.pth") = false := by
      rcases h with h | h
      · exact absurd h h1
      · exact h
    exact ⟨path.join "model.pth", by simp [h1, h2]⟩

theorem initModels_isSome (fs : FileSystem) (folder : FsPath) :
    ∀ (l : List String) (acc r : List (String × Model)),
      initModels fs folder l acc = .ok r →
      ∀ name, (assocFind r name).isSome = true ↔
        ((assocFind acc name).isSome = true ∨ name ∈ l) := by
  intro l
  induction l with
  | nil =>
      intro acc r h name
      simp [initModels] at h
      subst h
      simp
  | cons d rest ih =>
      intro acc r h name
      unfold initModels at h
      cases hm : Model.init fs (folder.join d) with
      | error e => rw [hm] at h; cases h
      | ok m =>
          rw [hm] at h
          have := ih (dictInsert acc d m) r h name
          rw [this]
          by_cases hd : name = d
          · subst hd
            simp [assocFind_dictInsert_self]
          · rw [assocFind_dictInsert_ne acc d name m hd]
            simp [hd]

theorem initModels_value (fs : FileSystem) (folder : FsPath) :
    ∀ (l : List String) (acc r : List (String × Model)),
      initModels fs folder l acc = .ok r →
      ∀ name mv, assocFind r name = some mv →
        assocFind acc name = some mv ∨
        Model.init fs (folder.join name) = .ok mv := by
  intro l
  induction l with
  | nil =>
      intro acc r h name mv hf
      simp [initModels] at h
      subst h
      exact Or.inl hf
  | cons d rest ih =>
      intro acc r h name mv hf
      unfold initModels at h
      cases hm : Model.init fs (folder.join d) with
      | error e => rw [hm] at h; cases h
      | ok m =>
          rw [hm] at h
          rcases ih (dictInsert acc d m) r h name mv hf with hacc | hinit
          · by_cases hd : name = d
            · subst hd
              rw [assocFind_dictInsert_self] at hacc
              have hmv : m = mv := Option.some_inj.mp hacc
              subst hmv
              exact Or.inr hm
            · rw [assocFind_dictInsert_ne acc d name m hd] at hacc
              exact Or.inl hacc
          · exact Or.inr hinit

theorem initModels_shape (fs : FileSystem) (folder : FsPath) :
    ∀ (l : List String) (acc : List (String × Model)),
      (∃ r, initModels fs folder l acc = .ok r) ∨
      (∃ pth, initModels fs folder l acc = .error (.fileNotFoundError pth)) := by
  intro l
  induction l with
  | nil => intro acc; exact Or.inl ⟨acc, rfl⟩
  | cons d rest ih =>
      intro acc
      rcases Model_init_error_shape fs (folder.join d) with ⟨m, hm⟩ | ⟨pth, hm⟩
      · rcases ih (dictInsert acc d m) with ⟨r, hr⟩ | ⟨pth, hr⟩
        · exact Or.inl ⟨r, by unfold initModels; rw [hm]; exact hr⟩
        · exact Or.inr ⟨pth, by unfold initModels; rw [hm]; exact hr⟩
      · exact Or.inr ⟨pth, by unfold initModels; rw [hm]⟩

theorem initModels_bad (fs : FileSystem) (folder : FsPath) :
    ∀ (l : List String) (acc : List (String × Model)) (d : String), d ∈ l →
      (fs.isFile ((folder.join d).join "hyperparameters.json") = false ∨
       fs.isFile ((folder.join d).join "model.pth") = false) →
      ∃ pth, initModels fs folder l acc = .error (.fileNotFoundError pth) := by
  intro l
  induction l with
  | nil => intro acc d hd; cases hd
  | cons d0 rest ih =>
      intro acc d hd hbad
      cases hm : Model.init fs (folder.join d0) with
      | error e =>
          rcases Model_init_error_shape fs (folder.join d0) with ⟨m, hm2⟩ | ⟨pth, hm2⟩
          · rw [hm] at hm2; cases hm2
          · exact ⟨pth, by unfold initModels; rw [hm2]⟩
      | ok m =>
          rcases List.mem_cons.mp hd with hd0 | hrest
          · subst hd0
            obtain ⟨pth, hpth⟩ := Model_init_bad fs (folder.join d) hbad
            rw [hm] at hpth; cases hpth
          · obtain ⟨pth, hpth⟩ := ih (dictInsert acc d0 m) d hrest hbad
            exact ⟨pth, by unfold initModels; rw [hm]; exact hpth⟩

theorem init_ok_inversion (fs : FileSystem) (folder key cfg : FsPath) (dev : String)
    (ps : PredictionSystem)
    (h : PredictionSystem.init fs folder key cfg dev = .ok ps) :
    fs.isDir folder = true ∧
    initModels fs folder (fs.listdir folder) [] = .ok ps.models ∧
    ps.device = dev ∧ ps.tuner_encryption_key = key ∧
    ps.tuner_configuration_parameters = cfg := by
  unfold PredictionSystem.init at h
  by_cases hd : fs.isDir folder = false
  · simp [hd] at h
  · rw [if_neg hd] at h
    cases hm : initModels fs folder (fs.listdir folder) [] with
    | error e => rw [hm] at h; cases h
    | ok models =>
        rw [hm] at h
        cases h
        exact ⟨by simpa using hd, rfl, rfl, rfl, rfl⟩

theorem assocFind_mem {α : Type} (l : List (String × α)) (n : String) (v : α)
    (h : assocFind l n = some v) : (n, v) ∈ l := by
  induction l with
  | nil => cases h
  | cons hd tl ih =>
      obtain ⟨k, w⟩ := hd
      by_cases hk : k = n
      · subst hk
        simp [assocFind] at h
        subst h
        simp
      · simp [assocFind, hk] at h
        simp [ih h]

theorem wfModels_find (ps : PredictionSystem) (n : String) (mv : Model)
    (hwf : PredictionSystem.wfModels ps) (h : assocFind ps.models n = some mv) :
    Model.wf mv :=
  hwf (n, mv) (assocFind_mem ps.models n mv h)

theorem evolves_refl (m : Model) : Model.evolves m m :=
  ⟨rfl, rfl, rfl, fun _ h => h, fun _ h => h, fun _ h => h⟩

theorem predict_resolves (ex : Extern) (ps : PredictionSystem) (name : String)
    (smiles : FsPath) (m : Model) (hm : assocFind ps.models name = some m) :
    PredictionSystem.predict ex ps name smiles =
      PredictionSystem.predictKnown ex ps name m smiles := by
  simp [PredictionSystem.predict, PredictionSystem.get_model, hm]

/-! ### The claims -/

/-- Claim C1: for every prediction system and every model name registered in
it, `predict(model_name, smiles)` first reads the SMILES structure file, then
runs it through the fixed preprocessing pipeline (tuner preparation followed
by fingerprint fold/transform), and only then performs model inference; under
the documented shape contracts of the delegated libraries it returns a pair
of prediction matrices, classification first and regression second, each with
one row per input sample and one column per task of that head. -/
theorem predict_pipeline_order_and_shapes (ex : Extern) (ps : PredictionSystem)
    (name : String) (smiles : FsPath) (m : Model)
    (hm : assocFind ps.models name = some m) (hwf : Model.wf m)
    (hprep : ∀ a df, (ex.do_prepare_prediction_online a df).rows = df.nrows)
    (hfold : ∀ x f t, (ex.fold_transform_inputs x f t).rows = x.rows)
    (hlcs : ∀ r c, (ex.load_check_sparse r c).rows = r ∧
      (ex.load_check_sparse r c).cols = c)
    (hsc : ∀ net ld, (ex.sc_predict net ld).1.rows = ld.dataset.x.rows ∧
      (ex.sc_predict net ld).1.cols = ld.dataset.y_class.cols ∧
      (ex.sc_predict net ld).2.rows = ld.dataset.x.rows ∧
      (ex.sc_predict net ld).2.cols = ld.dataset.y_regr.cols) :
    ∃ ps2 cls reg t1 t2 dv,
      PredictionSystem.predict ex ps name smiles =
        (.ok (ps2, cls, reg),
         Event.readInputFile (pathStr smiles)
           :: Event.doPreparePrediction (PredictionSystem.build_data_preparation_args ps smiles)
           :: (t1 ++ Event.foldTransformInputs (Model.effectiveConf ex m).fold_inputs
                 (Model.effectiveConf ex m).input_transform
           :: (t2 ++ [Event.scPredict dv]))) ∧
      cls.rows = (ex.read_input_file (pathStr smiles)).nrows ∧
      cls.cols = (Model.effectiveConf ex m).class_output_size ∧
      reg.rows = (ex.read_input_file (pathStr smiles)).nrows ∧
      reg.cols = (Model.effectiveConf ex m).regr_output_size := by
  obtain ⟨m5, net, dv, t1, t2, heq, hn5, hd5, hev, hwf5, hdev, ht1, ht2⟩ :=
    predictKnown_spec ex ps name m smiles hwf
  refine ⟨{ ps with models := dictInsert ps.models name m5 },
    (ex.sc_predict net (predictLoader ex ps m smiles)).1,
    (ex.sc_predict net (predictLoader ex ps m smiles)).2,
    t1, t2, dv, ?_, ?_, ?_, ?_, ?_⟩
  · rw [predict_resolves ex ps name smiles m hm]
    exact heq
  · rw [(hsc net (predictLoader ex ps m smiles)).1]
    simp only [predictLoader, predictX]
    rw [hfold, hprep]
  · rw [(hsc net (predictLoader ex ps m smiles)).2.1]
    simp only [predictLoader]
    exact (hlcs _ _).2
  · rw [(hsc net (predictLoader ex ps m smiles)).2.2.1]
    simp only [predictLoader, predictX]
    rw [hfold, hprep]
  · rw [(hsc net (predictLoader ex ps m smiles)).2.2.2]
    simp only [predictLoader]
    exact (hlcs _ _).2

/-- Witness for C1: the pipeline theorem applied to the concrete system
`ps0`, the registered model `"m1"` and the structure file `in.csv`. -/
theorem predict_pipeline_order_and_shapes_witness :
    ∃ ps2 cls reg t1 t2 dv,
      PredictionSystem.predict ex0 ps0 "m1" ["in.csv"] =
        (.ok (ps2, cls, reg),
         Event.readInputFile (pathStr ["in.csv"])
           :: Event.doPreparePrediction (PredictionSystem.build_data_preparation_args ps0 ["in.csv"])
           :: (t1 ++ Event.foldTransformInputs (Model.effectiveConf ex0 m0).fold_inputs
                 (Model.effectiveConf ex0 m0).input_transform
           :: (t2 ++ [Event.scPredict dv]))) ∧
      cls.rows = (ex0.read_input_file (pathStr ["in.csv"])).nrows ∧
      cls.cols = (Model.effectiveConf ex0 m0).class_output_size ∧
      reg.rows = (ex0.read_input_file (pathStr ["in.csv"])).nrows ∧
      reg.cols = (Model.effectiveConf ex0 m0).regr_output_size :=
  predict_pipeline_order_and_shapes ex0 ps0 "m1" ["in.csv"] m0
    (by decide) (by decide)
    (fun a df => rfl) (fun x f t => rfl)
    (fun r c => ⟨rfl, rfl⟩)
    (fun net ld => ⟨rfl, rfl, rfl, rfl⟩)

/-- Claim C2: `predict(model_name, smiles)` raises `ModelUnknownError` if and
only if `model_name` is not a key of the model registry, and when it raises,
no preprocessing or inference step has been performed (the trace of delegated
calls is empty). -/
theorem predict_unknown_model_iff (ex : Extern) (ps : PredictionSystem)
    (name : String) (smiles : FsPath) (hwf : PredictionSystem.wfModels ps) :
    ((PredictionSystem.predict ex ps name smiles).1 =
        .error (.modelUnknownError "Requested model does not exist") ↔
      assocFind ps.models name = none) ∧
    (assocFind ps.models name = none →
      PredictionSystem.predict ex ps name smiles =
        (.error (.modelUnknownError "Requested model does not exist"), [])) := by
  cases hm : assocFind ps.models name with
  | none =>
      refine ⟨⟨fun _ => rfl, fun _ => ?_⟩, fun _ => ?_⟩ <;>
        simp [PredictionSystem.predict, PredictionSystem.get_model, hm]
  | some m =>
      have hw := wfModels_find ps name m hwf hm
      obtain ⟨m5, net, dv, t1, t2, heq, _⟩ := predictKnown_spec ex ps name m smiles hw
      refine ⟨⟨fun hcontra => ?_, fun h => ?_⟩, fun h => ?_⟩
      · rw [predict_resolves ex ps name smiles m hm, heq] at hcontra
        cases hcontra
      · exact Option.noConfusion h
      · exact Option.noConfusion h

/-- Witness for C2: on `ps0`, a lookup for the unregistered name `"nope"`
raises the lookup-miss error with an empty trace, and the registered name
`"m1"` does not raise it. -/
theorem predict_unknown_model_iff_witness :
    (((PredictionSystem.predict ex0 ps0 "nope" ["in.csv"]).1 =
        .error (.modelUnknownError "Requested model does not exist") ↔
      assocFind ps0.models "nope" = none) ∧
    (assocFind ps0.models "nope" = none →
      PredictionSystem.predict ex0 ps0 "nope" ["in.csv"] =
        (.error (.modelUnknownError "Requested model does not exist"), []))) ∧
    (((PredictionSystem.predict ex0 ps0 "m1" ["in.csv"]).1 =
        .error (.modelUnknownError "Requested model does not exist") ↔
      assocFind ps0.models "m1" = none) ∧
    (assocFind ps0.models "m1" = none →
      PredictionSystem.predict ex0 ps0 "m1" ["in.csv"] =
        (.error (.modelUnknownError "Requested model does not exist"), []))) :=
  ⟨predict_unknown_model_iff ex0 ps0 "nope" ["in.csv"] (by decide),
   predict_unknown_model_iff ex0 ps0 "m1" ["in.csv"] (by decide)⟩

/-- Claim C3 counterexample: `PredictionSystem.__init__` on a path that is
not a directory raises `NotADirectoryError`, an error of the orchestration
layer itself that is not the lookup-miss error, so the lookup-miss error is
not the only error the layer raises. -/
theorem orchestration_error_space_cex :
    PredictionSystem.init fs_nodir ["models"] ["key.json"] ["params.json"] "cpu" =
      .error (.notADirectoryError ["models"]) ∧
    ∀ msg, PyError.notADirectoryError ["models"] ≠ PyError.modelUnknownError msg :=
  ⟨by decide, fun msg h => PyError.noConfusion h⟩

/-- Claim C3 (amended): apart from errors propagated from the delegated
libraries, the orchestration layer raises only the lookup-miss error
(`ModelUnknownError`) after construction -- `predict` either succeeds or
raises exactly that error -- while construction itself additionally raises
only its two validation errors, `NotADirectoryError` and
`FileNotFoundError`. -/
theorem orchestration_error_space (ex : Extern) (ps : PredictionSystem)
    (name : String) (smiles : FsPath) (fs : FileSystem)
    (folder key cfg : FsPath) (dev : String)
    (hwf : PredictionSystem.wfModels ps) :
    ((∃ r tr, PredictionSystem.predict ex ps name smiles = (.ok r, tr)) ∨
     (PredictionSystem.predict ex ps name smiles).1 =
       .error (.modelUnknownError "Requested model does not exist")) ∧
    ((∃ ps2, PredictionSystem.init fs folder key cfg dev = .ok ps2) ∨
     (PredictionSystem.init fs folder key cfg dev = .error (.notADirectoryError folder)) ∨
     (∃ pth, PredictionSystem.init fs folder key cfg dev =
        .error (.fileNotFoundError pth))) := by
  constructor
  · cases hm : assocFind ps.models name with
    | none =>
        right
        simp [PredictionSystem.predict, PredictionSystem.get_model, hm]
    | some m =>
        left
        obtain ⟨m5, net, dv, t1, t2, heq, _⟩ :=
          predictKnown_spec ex ps name m smiles (wfModels_find ps name m hwf hm)
        exact ⟨_, _, by rw [predict_resolves ex ps name smiles m hm]; exact heq⟩
  · unfold PredictionSystem.init
    by_cases hd : fs.isDir folder = false
    · right
      left
      simp [hd]
    · rcases initModels_shape fs folder (fs.listdir folder) [] with ⟨r, hr⟩ | ⟨pth, hr⟩
      · left
        exact ⟨{ device := dev, tuner_encryption_key := key,
                 tuner_configuration_parameters := cfg, models := r },
               by simp [hd, hr]⟩
      · right
        right
        exact ⟨pth, by simp [hd, hr]⟩

/-- Witness for C3 (amended): the error-space theorem applied to the
concrete system `ps0` with the registered name `"m1"`, and to the concrete
filesystem `fs0`. -/
theorem orchestration_error_space_witness :
    ((∃ r tr, PredictionSystem.predict ex0 ps0 "m1" ["in.csv"] = (.ok r, tr)) ∨
     (PredictionSystem.predict ex0 ps0 "m1" ["in.csv"]).1 =
       .error (.modelUnknownError "Requested model does not exist")) ∧
    ((∃ ps2, PredictionSystem.init fs0 ["models"] ["k.json"] ["p.json"] "cpu" = .ok ps2) ∨
     (PredictionSystem.init fs0 ["models"] ["k.json"] ["p.json"] "cpu" =
        .error (.notADirectoryError ["models"])) ∨
     (∃ pth, PredictionSystem.init fs0 ["models"] ["k.json"] ["p.json"] "cpu" =
        .error (.fileNotFoundError pth))) :=
  orchestration_error_space ex0 ps0 "m1" ["in.csv"] fs0 ["models"] ["k.json"] ["p.json"] "cpu"
    (by decide)

/-- Claim C4: after `PredictionSystem.__init__` succeeds on a directory, the
registry maps exactly the entry names listed in the model folder, each to a
handle whose path is the folder joined with that entry name (with the two
derived file paths and empty lazy attributes); no other models are
registered. -/
theorem init_registry_exact (fs : FileSystem) (folder key cfg : FsPath)
    (dev : String) (ps : PredictionSystem)
    (h : PredictionSystem.init fs folder key cfg dev = .ok ps) :
    (∀ name, (assocFind ps.models name).isSome = true ↔ name ∈ fs.listdir folder) ∧
    (∀ name mv, assocFind ps.models name = some mv →
       mv.path = folder.join name ∧
       mv.conf_path = (folder.join name).join "hyperparameters.json" ∧
       mv.model_path = (folder.join name).join "model.pth" ∧
       mv.conf_cache = none ∧ mv.net_cache = none ∧ mv.device_cache = none) := by
  obtain ⟨hdir, hmods, _, _, _⟩ := init_ok_inversion fs folder key cfg dev ps h
  constructor
  · intro name
    have hiff := initModels_isSome fs folder (fs.listdir folder) [] ps.models hmods name
    simpa [assocFind] using hiff
  · intro name mv hf
    rcases initModels_value fs folder (fs.listdir folder) [] ps.models hmods name mv hf with
      hacc | hinit
    · simp [assocFind] at hacc
    · obtain ⟨_, _, hmv⟩ := Model_init_ok fs (folder.join name) mv hinit
      rw [hmv]
      exact ⟨rfl, rfl, rfl, rfl, rfl, rfl⟩

/-- Witness for C4: initialization on the concrete filesystem `fs0` yields
exactly the registry of `ps0`, whose single entry `"m1"` has the derived
paths under `models/m1`. -/
theorem init_registry_exact_witness :
    (∀ name, (assocFind ps0.models name).isSome = true ↔ name ∈ fs0.listdir ["models"]) ∧
    (∀ name mv, assocFind ps0.models name = some mv →
       mv.path = FsPath.join ["models"] name ∧
       mv.conf_path = (FsPath.join ["models"] name).join "hyperparameters.json" ∧
       mv.model_path = (FsPath.join ["models"] name).join "model.pth" ∧
       mv.conf_cache = none ∧ mv.net_cache = none ∧ mv.device_cache = none) :=
  init_registry_exact fs0 ["models"]
    ["inputs", "config", "example_key.json"]
    ["inputs", "config", "example_parameters.json"] "cpu" ps0 (by decide)

/-- Claim C5: for every `predict` call on a registered model, the
input-preparation request delegated to the chemistry-descriptor toolkit is
unique in the run and consists of exactly the given structure file path, the
parameters file path given at init, the encryption key file path given at
init, the fixed run name `"mms"`, `number_cpu` 1, `non_interactive` true and
a null reference hash. -/
theorem predict_preparation_args (ex : Extern) (ps : PredictionSystem)
    (name : String) (smiles : FsPath) (m : Model)
    (hm : assocFind ps.models name = some m) (hwf : Model.wf m) :
    ((PredictionSystem.predict ex ps name smiles).2).filter Event.isPrep =
      [Event.doPreparePrediction
        { structure_file := pathStr smiles,
          config_file := pathStr ps.tuner_configuration_parameters,
          key_file := pathStr ps.tuner_encryption_key,
          run_name := "mms", number_cpu := 1, non_interactive := true,
          ref_hash := none }] := by
  obtain ⟨m5, net, dv, t1, t2, heq, hn5, hd5, hev, hwf5, hdev, ht1, ht2⟩ :=
    predictKnown_spec ex ps name m smiles hwf
  rw [predict_resolves ex ps name smiles m hm, heq]
  have e1 : List.filter Event.isPrep t1 = [] :=
    filter_of_all_false Event.isPrep t1 fun e he => (ht1 e he).1
  have e2 : List.filter Event.isPrep t2 = [] :=
    filter_of_all_false Event.isPrep t2 fun e he => (ht2 e he).1
  simp [List.filter_append, e1, e2, Event.isPrep,
    PredictionSystem.build_data_preparation_args, PREPARATION_RUN_NAME]

/-- Witness for C5: the preparation-request theorem applied to the concrete
system `ps0`, the registered model `"m1"` and the structure file `in.csv`. -/
theorem predict_preparation_args_witness :
    ((PredictionSystem.predict ex0 ps0 "m1" ["in.csv"]).2).filter Event.isPrep =
      [Event.doPreparePrediction
        { structure_file := pathStr ["in.csv"],
          config_file := pathStr ps0.tuner_configuration_parameters,
          key_file := pathStr ps0.tuner_encryption_key,
          run_name := "mms", number_cpu := 1, non_interactive := true,
          ref_hash := none }] :=
  predict_preparation_args ex0 ps0 "m1" ["in.csv"] m0 (by decide) (by decide)

/-- Claim C6: the fingerprint folding/transform step of a `predict` call is
delegated exactly once, parameterized by the resolved model's configured
`fold_inputs` and `input_transform` values; when the configuration is not
yet cached these values come from the `load_results` read of the model's
hyperparameters file. -/
theorem predict_fold_transform_params (ex : Extern) (ps : PredictionSystem)
    (name : String) (smiles : FsPath) (m : Model)
    (hm : assocFind ps.models name = some m) (hwf : Model.wf m) :
    ((PredictionSystem.predict ex ps name smiles).2).filter Event.isFold =
      [Event.foldTransformInputs (Model.effectiveConf ex m).fold_inputs
        (Model.effectiveConf ex m).input_transform] ∧
    (m.conf_cache = none →
      Model.effectiveConf ex m = ex.load_results_conf m.conf_path) := by
  obtain ⟨m5, net, dv, t1, t2, heq, hn5, hd5, hev, hwf5, hdev, ht1, ht2⟩ :=
    predictKnown_spec ex ps name m smiles hwf
  constructor
  · rw [predict_resolves ex ps name smiles m hm, heq]
    have e1 : List.filter Event.isFold t1 = [] :=
      filter_of_all_false Event.isFold t1 fun e he => (ht1 e he).2.1
    have e2 : List.filter Event.isFold t2 = [] :=
      filter_of_all_false Event.isFold t2 fun e he => (ht2 e he).2.1
    simp [List.filter_append, e1, e2, Event.isFold]
  · intro hc
    simp [Model.effectiveConf, hc]

/-- Witness for C6: the fold/transform theorem applied to the concrete
system `ps0`, whose model `"m1"` is configured with `fold_inputs = 32000`
and `input_transform = "binarize"`. -/
theorem predict_fold_transform_params_witness :
    (((PredictionSystem.predict ex0 ps0 "m1" ["in.csv"]).2).filter Event.isFold =
      [Event.foldTransformInputs (Model.effectiveConf ex0 m0).fold_inputs
        (Model.effectiveConf ex0 m0).input_transform] ∧
    (m0.conf_cache = none →
      Model.effectiveConf ex0 m0 = ex0.load_results_conf m0.conf_path)) ∧
    Model.effectiveConf ex0 m0 = conf0 :=
  ⟨predict_fold_transform_params ex0 ps0 "m1" ["in.csv"] m0 (by decide) (by decide),
   by decide⟩

/-- Claim C7 counterexample: the code does cache. On the fresh model `m0`
the first configuration access performs the `load_results` read, but the
second access performs no delegated call at all and returns the stored
namespace; likewise a second `load` performs no delegated call and returns
the stored state, refuting that every access re-performs the underlying
library read. -/
theorem lazy_memoization_cex :
    (Model.conf ex0 m0).2.2 = [Event.loadResults ["models", "m1", "hyperparameters.json"]] ∧
    Model.conf ex0 ((Model.conf ex0 m0).1) = ((Model.conf ex0 m0).1, conf0, []) ∧
    (Model.load ex0 m0 "cpu").2 =
      [Event.loadResults ["models", "m1", "hyperparameters.json"],
       Event.torchLoad ["models", "m1", "model.pth"] "cpu"] ∧
    Model.load ex0 ((Model.load ex0 m0 "cpu").1) "cpu" = ((Model.load ex0 m0 "cpu").1, []) := by
  decide

/-- Claim C7 (amended): the orchestration layer performs no caching beyond
per-model lazy memoization and no eviction: `Model.conf` and `Model.load`
store their result on first use, and every later configuration access or
load call returns the stored state, performing no delegated library call. -/
theorem lazy_memoization (ex : Extern) (m : Model) :
    (Model.conf ex ((Model.conf ex m).1) =
      ((Model.conf ex m).1, (Model.conf ex m).2.1, [])) ∧
    (∀ d d', Model.load ex ((Model.load ex m d).1) d' = ((Model.load ex m d).1, [])) :=
  ⟨conf_then_conf ex m, fun d d' => load_then_load ex m d d'⟩

/-- Claim C8: construction validates the whole deployment eagerly:
`__init__` raises `NotADirectoryError` when the model folder is not a
directory, and raises `FileNotFoundError` when any listed entry lacks
`hyperparameters.json` or `model.pth`, so a single malformed model folder
makes construction of the entire registry fail. -/
theorem init_validation (fs : FileSystem) (folder key cfg : FsPath) (dev : String) :
    (fs.isDir folder = false →
      PredictionSystem.init fs folder key cfg dev = .error (.notADirectoryError folder)) ∧
    (∀ d, fs.isDir folder = true → d ∈ fs.listdir folder →
      (fs.isFile ((folder.join d).join "hyperparameters.json") = false ∨
       fs.isFile ((folder.join d).join "model.pth") = false) →
      ∃ pth, PredictionSystem.init fs folder key cfg dev =
        .error (.fileNotFoundError pth)) := by
  constructor
  · intro hd
    unfold PredictionSystem.init
    simp [hd]
  · intro d hdir hmem hbad
    obtain ⟨pth, hpth⟩ := initModels_bad fs folder (fs.listdir folder) [] d hmem hbad
    refine ⟨pth, ?_⟩
    unfold PredictionSystem.init
    simp [hdir, hpth]

/-- Witness for C8: on `fs_nodir` construction fails with
`NotADirectoryError`, and on `fs_badmodel` (whose entry `bad` lacks
`hyperparameters.json`) it fails with `FileNotFoundError`. -/
theorem init_validation_witness :
    PredictionSystem.init fs_nodir ["models"] ["k.json"] ["p.json"] "cpu" =
      .error (.notADirectoryError ["models"]) ∧
    ∃ pth, PredictionSystem.init fs_badmodel ["models"] ["k.json"] ["p.json"] "cpu" =
      .error (.fileNotFoundError pth) :=
  ⟨(init_validation fs_nodir ["models"] ["k.json"] ["p.json"] "cpu").1 (by decide),
   (init_validation fs_badmodel ["models"] ["k.json"] ["p.json"] "cpu").2 "bad"
     (by decide) (by decide) (Or.inl (by decide))⟩

/-- Claim C9: once `Model.load(d1)` has loaded a fresh model on device `d1`,
every later `load(d2)` -- for any `d2`, equal to `d1` or not -- returns the
state unchanged with no delegated call: the `d2` argument is silently
ignored, and subsequent predictions still run on `d1`. -/
theorem load_device_sticky (ex : Extern) (m : Model) (d1 d2 : String)
    (h : m.net_cache = none) :
    (Model.load ex ((Model.load ex m d1).1) d2 = ((Model.load ex m d1).1, [])) ∧
    (((Model.load ex m d1).1).device_cache = some d1) ∧
    (∀ data, ∃ net, ((Model.load ex m d1).1).net_cache = some net ∧
      Model.predict ex ((Model.load ex m d1).1) data =
        .ok (ex.sc_predict net data, [Event.scPredict d1])) := by
  have hl := load_of_fresh ex m d1 h
  refine ⟨load_then_load ex m d1 d2, ?_, ?_⟩
  · rw [hl]
  · intro data
    refine ⟨{ conf := (Model.conf ex m).2.1,
              state_path := ((Model.conf ex m).1).model_path, device := d1 }, ?_, ?_⟩
    · rw [hl]
    · exact predict_of_loaded ex ((Model.load ex m d1).1) data
        { conf := (Model.conf ex m).2.1,
          state_path := ((Model.conf ex m).1).model_path, device := d1 } d1
        (by rw [hl]) (by rw [hl])

/-- Witness for C9: loading `m0` on `"cpu"` and then on `"cuda:0"` leaves
the state on `"cpu"`; the inference call still runs on `"cpu"`. -/
theorem load_device_sticky_witness :
    (Model.load ex0 ((Model.load ex0 m0 "cpu").1) "cuda:0" =
      ((Model.load ex0 m0 "cpu").1, [])) ∧
    (((Model.load ex0 m0 "cpu").1).device_cache = some "cpu") ∧
    (∀ data, ∃ net, ((Model.load ex0 m0 "cpu").1).net_cache = some net ∧
      Model.predict ex0 ((Model.load ex0 m0 "cpu").1) data =
        .ok (ex0.sc_predict net data, [Event.scPredict "cpu"])) :=
  load_device_sticky ex0 m0 "cpu" "cuda:0" (by decide)

/-- Claim C10: every operation after construction leaves the system's
device, encryption key path and preparation parameters path unchanged and
preserves the set of registered model names; the handle of the predicted
model may only have its lazy fields newly filled in (its path fields are
unchanged and already-filled caches keep their values), every other handle
is untouched, and configuration access and model loading evolve a handle
the same way. -/
theorem predict_state_frame (ex : Extern) (ps : PredictionSystem)
    (name : String) (smiles : FsPath) (ps2 : PredictionSystem)
    (cls reg : Mat) (tr : List Event)
    (hwf : PredictionSystem.wfModels ps)
    (h : PredictionSystem.predict ex ps name smiles = (.ok (ps2, cls, reg), tr)) :
    ps2.device = ps.device ∧
    ps2.tuner_encryption_key = ps.tuner_encryption_key ∧
    ps2.tuner_configuration_parameters = ps.tuner_configuration_parameters ∧
    (∀ n, (assocFind ps2.models n).isSome = (assocFind ps.models n).isSome) ∧
    (∀ n, n ≠ name → assocFind ps2.models n = assocFind ps.models n) ∧
    (∀ n mv2, assocFind ps2.models n = some mv2 →
      ∃ mv, assocFind ps.models n = some mv ∧ Model.evolves mv mv2) ∧
    (∀ mv, Model.evolves mv ((Model.conf ex mv).1)) ∧
    (∀ mv d, Model.wf mv → Model.evolves mv ((Model.load ex mv d).1)) := by
  cases hm : assocFind ps.models name with
  | none =>
      have hpred : PredictionSystem.predict ex ps name smiles =
          (.error (.modelUnknownError "Requested model does not exist"), []) := by
        simp [PredictionSystem.predict, PredictionSystem.get_model, hm]
      rw [hpred] at h
      simp at h
  | some m =>
      have hw := wfModels_find ps name m hwf hm
      obtain ⟨m5, net, dv, t1, t2, heq, hn5, hd5, hev, hwf5, hdev, ht1, ht2⟩ :=
        predictKnown_spec ex ps name m smiles hw
      rw [predict_resolves ex ps name smiles m hm, heq] at h
      have hps : ({ ps with models := dictInsert ps.models name m5 } :
          PredictionSystem) = ps2 := by
        have := congrArg Prod.fst h
        simp only [Except.ok.injEq, Prod.mk.injEq] at this
        exact this.1
      rw [← hps]
      refine ⟨rfl, rfl, rfl, ?_, ?_, ?_, ?_, ?_⟩
      · intro n
        by_cases hn : n = name
        · subst hn
          rw [assocFind_dictInsert_self, hm]
          rfl
        · rw [assocFind_dictInsert_ne ps.models name n m5 hn]
      · intro n hn
        exact assocFind_dictInsert_ne ps.models name n m5 hn
      · intro n mv2 hf
        by_cases hn : n = name
        · subst hn
          rw [assocFind_dictInsert_self] at hf
          have hm5 : m5 = mv2 := Option.some_inj.mp hf
          subst hm5
          exact ⟨m, hm, hev⟩
        · rw [assocFind_dictInsert_ne ps.models name n m5 hn] at hf
          exact ⟨mv2, hf, evolves_refl mv2⟩
      · intro mv
        exact conf_evolves ex mv
      · intro mv d hwm
        exact load_evolves ex mv d hwm

/-- Witness for C10: the frame theorem applied to the concrete run
`predict ex0 ps0 "m1" ["in.csv"]`, whose result and trace are spelled out
(`ps0after`, `trace0`). -/
theorem predict_state_frame_witness :
    ps0after.device = ps0.device ∧
    ps0after.tuner_encryption_key = ps0.tuner_encryption_key ∧
    ps0after.tuner_configuration_parameters = ps0.tuner_configuration_parameters ∧
    (∀ n, (assocFind ps0after.models n).isSome = (assocFind ps0.models n).isSome) ∧
    (∀ n, n ≠ "m1" → assocFind ps0after.models n = assocFind ps0.models n) ∧
    (∀ n mv2, assocFind ps0after.models n = some mv2 →
      ∃ mv, assocFind ps0.models n = some mv ∧ Model.evolves mv mv2) ∧
    (∀ mv, Model.evolves mv ((Model.conf ex0 mv).1)) ∧
    (∀ mv d, Model.wf mv → Model.evolves mv ((Model.load ex0 mv d).1)) :=
  predict_state_frame ex0 ps0 "m1" ["in.csv"] ps0after
    { rows := 5, cols := 3, payload := 1 } { rows := 5, cols := 2, payload := 2 } trace0
    (by decide) (by decide)
